import Mathlib

/-!
Shallow embedding of `backend/ai_agent/agent.py` (the AI analysis
orchestration component of the task-manager repository): the pydantic output
schemas, the safe-default structured-request executors `classify_task` and
`suggest_subtasks`, the orchestrator `analyze_task` / `analyze_task_stream`,
and the backend selector `_initialize_llm` / `_initialize_fallback_llm`.

Modelling conventions:
- A bound backend's observable behaviour at one chain invocation
  (`prompt | self.llm | parser`) is either an exception carrying a message
  string (the backend raised, or the output was unparsable, or a field was
  missing or ill-typed) or a successfully JSON-parsed record with well-typed
  fields, which pydantic then validates.  Backends may vary between calls, so
  an invocation index (the agent's k-th chain call) is threaded through.
- Python `except Exception` around a whole `try` body is modelled by the
  executors being total functions returning the safe default on the failure
  constructors.
- The human-readable `message` strings of streamed events and the
  `time.sleep` UX delays are not modelled; no claim depends on them.
-/

/-- Fields of a classification response after JSON parsing succeeds with the
types declared on `TaskClassification` (`category: str`, `reasoning: str`,
`priority: int`), before pydantic constraint validation runs. -/
structure RawClassification where
  category : String
  reasoning : String
  priority : Int
  deriving Repr, DecidableEq

/-- `TaskClassification.model_dump()`: the dict `classify_task` returns, with
keys `category`, `reasoning`, `priority`. -/
structure TaskClassification where
  category : String
  reasoning : String
  priority : Int
  deriving Repr, DecidableEq

/-- Text of the validation error raised by the output parser (`str(e)`); the
real message quotes the offending completion, so it is a function of the raw
record.  Its exact wording is not claim-relevant. -/
def validation_error_text (raw : RawClassification) : String :=
  "Failed to parse TaskClassification from completion with priority "
    ++ toString raw.priority

/-- Pydantic validation step of `PydanticOutputParser(TaskClassification)`:
the `priority` field carries `ge=1, le=5` and validation raises when the value
is out of range; `category` and `reasoning` are plain `str` fields with no
value constraint, so any string passes. -/
def validate_classification (raw : RawClassification) :
    Except String TaskClassification :=
  if 1 ≤ raw.priority ∧ raw.priority ≤ 5 then
    .ok ⟨raw.category, raw.reasoning, raw.priority⟩
  else
    .error (validation_error_text raw)

/-- `SubtaskSuggestion`: title and description, both plain `str` fields. -/
structure SubtaskSuggestion where
  title : String
  description : String
  deriving Repr, DecidableEq

/-- `SubtaskList.model_dump()`: the dict `suggest_subtasks` returns on
success. -/
structure SubtaskList where
  subtasks : List SubtaskSuggestion
  reasoning : String
  deriving Repr, DecidableEq

/-- Fields of a subtask-list response after JSON parsing succeeds with
well-typed items; `reasoning` is optional because the pydantic field has a
default value. -/
structure RawSubtaskList where
  subtasks : List SubtaskSuggestion
  reasoning : Option String
  deriving Repr, DecidableEq

/-- Pydantic validation of `SubtaskList`: no field constraint can fail; a
missing `reasoning` takes the declared default. -/
def validate_subtask_list (raw : RawSubtaskList) : SubtaskList :=
  ⟨raw.subtasks, raw.reasoning.getD "Task broken down into actionable steps"⟩

/-- Outcome of one classification chain invocation: `fail` covers the backend
raising, unparsable output, and missing or ill-typed fields (all reach the
same `except Exception`); `parsed` carries the well-typed JSON record handed
to pydantic validation. -/
inductive ClassifyOutcome
  | fail (msg : String)
  | parsed (raw : RawClassification)
  deriving Repr

/-- Outcome of one subtask chain invocation, analogous to
`ClassifyOutcome`. -/
inductive SubtasksOutcome
  | fail (msg : String)
  | parsed (raw : RawSubtaskList)
  deriving Repr

/-- A bound backend behaviour (`self.llm` seen through each chain): for the
agent's k-th chain invocation with the given title and description, the
outcome that invocation produces.  The index lets the behaviour vary between
calls, covering non-deterministic backends. -/
structure Backend where
  classify : Nat → String → String → ClassifyOutcome
  subtasks : Nat → String → String → SubtasksOutcome

/-- `TaskAIAgent.classify_task`: run the classification chain; on success
return the validated result's dump, on any exception (backend failure, parse
failure, validation failure) return the safe default
`{category: other, reasoning: "Classification unavailable: " + str(e),
priority: 3}`. -/
def classify_task (b : Backend) (k : Nat) (title description : String) :
    TaskClassification :=
  match b.classify k title description with
  | .fail e => ⟨"other", "Classification unavailable: " ++ e, 3⟩
  | .parsed raw =>
    match validate_classification raw with
    | .ok result => result
    | .error e => ⟨"other", "Classification unavailable: " ++ e, 3⟩

/-- `TaskAIAgent.suggest_subtasks`: run the subtask chain; on success return
the validated result's dump, on any exception return the safe default
`{subtasks: [], reasoning: "Subtask generation unavailable: " + str(e)}`. -/
def suggest_subtasks (b : Backend) (k : Nat) (title description : String) :
    SubtaskList :=
  match b.subtasks k title description with
  | .fail e => ⟨[], "Subtask generation unavailable: " ++ e⟩
  | .parsed raw => validate_subtask_list raw

/-- The dict `analyze_task` returns and the `complete` event carries. -/
structure AnalysisResult where
  classification : TaskClassification
  subtasks : SubtaskList
  deriving Repr, DecidableEq

/-- `TaskAIAgent.analyze_task` starting at chain-invocation index `k`:
classification first (call `k`), then subtasks (call `k+1`), sequentially and
unconditionally. -/
def analyze_task (b : Backend) (k : Nat) (title description : String) :
    AnalysisResult :=
  { classification := classify_task b k title description
    subtasks := suggest_subtasks b (k + 1) title description }

/-- Event `type` values of the streaming protocol. -/
inductive EventType
  | start
  | progress
  | error
  | complete
  deriving Repr, DecidableEq

/-- Payload carried in an event's optional `data` key. -/
inductive EventData
  | classification (c : TaskClassification)
  | subtaskList (s : SubtaskList)
  | result (r : AnalysisResult)
  deriving Repr, DecidableEq

/-- One yielded event of `analyze_task_stream`: its `type`, `step`, and
optional `data` keys (the human-readable `message` is not modelled). -/
structure AnalysisEvent where
  type : EventType
  step : String
  data : Option EventData
  deriving Repr, DecidableEq

/-- `TaskAIAgent.analyze_task_stream` starting at chain-invocation index `k`,
as the list of events the generator yields when driven to exhaustion.  The
source wraps its calls to `classify_task` and `suggest_subtasks` in
`try/except Exception` blocks that would yield an `error` event, but both
callees already catch every exception internally and return a value, so those
branches never execute and the embedding has no failure path there. -/
def analyze_task_stream (b : Backend) (k : Nat) (title description : String) :
    List AnalysisEvent :=
  let classification := classify_task b k title description
  let subtasks := suggest_subtasks b (k + 1) title description
  [ ⟨.start, "initialization", none⟩,
    ⟨.progress, "classification", none⟩,
    ⟨.progress, "classification", some (.classification classification)⟩,
    ⟨.progress, "subtasks", none⟩,
    ⟨.progress, "subtasks", some (.subtaskList subtasks)⟩,
    ⟨.complete, "done", some (.result ⟨classification, subtasks⟩)⟩ ]

/-- The value `_initialize_llm` binds to `self.llm`: the primary Ollama
backend or one of the two external fallback providers. -/
inductive LLM
  | ollama (model base_url : String)
  | chatAnthropic (api_key : String)
  | chatOpenAI (api_key : String)
  deriving Repr, DecidableEq

/-- Environment the selector consults: the configured model name and
endpoint, the outcome of constructing `Ollama` and probing it with
`llm.invoke("test")` (`none` means the probe succeeded, `some e` the
exception text), the two provider credentials read from the environment, and
whether each provider's client library is importable.  Constructing a
provider client from a present credential and an importable library is
modelled as succeeding, matching the source catching only `ImportError`
there. -/
structure SelectorEnv where
  model : String
  base_url : String
  ollama_error : Option String
  anthropic_api_key : Option String
  openai_api_key : Option String
  langchain_anthropic_installed : Bool
  langchain_openai_installed : Bool
  deriving Repr, DecidableEq

/-- `TaskAIAgent._initialize_fallback_llm`: try Anthropic (credential
present, library importable), then OpenAI, in that fixed order; raise
`RuntimeError("No LLM available (Ollama failed, no API keys)")` when neither
initializes.  A present credential whose library import fails falls through
to the next provider. -/
def _initialize_fallback_llm (env : SelectorEnv) : Except String LLM :=
  match env.anthropic_api_key with
  | some key =>
    if env.langchain_anthropic_installed then
      .ok (.chatAnthropic key)
    else
      match env.openai_api_key with
      | some key2 =>
        if env.langchain_openai_installed then .ok (.chatOpenAI key2)
        else .error "No LLM available (Ollama failed, no API keys)"
      | none => .error "No LLM available (Ollama failed, no API keys)"
  | none =>
    match env.openai_api_key with
    | some key2 =>
      if env.langchain_openai_installed then .ok (.chatOpenAI key2)
      else .error "No LLM available (Ollama failed, no API keys)"
    | none => .error "No LLM available (Ollama failed, no API keys)"

/-- `TaskAIAgent._initialize_llm`: use Ollama when the construction-and-probe
succeeds; otherwise fall back when fallback is enabled, or raise
`RuntimeError("Ollama not available and fallback disabled: " + str(e))`
immediately when it is disabled.  `.error` models the raised `RuntimeError`,
the spec's `BackendUnavailable`. -/
def _initialize_llm (env : SelectorEnv) (use_fallback : Bool) :
    Except String LLM :=
  match env.ollama_error with
  | none => .ok (.ollama env.model env.base_url)
  | some e =>
    if use_fallback then _initialize_fallback_llm env
    else .error ("Ollama not available and fallback disabled: " ++ e)

/-- A fallback provider exists whose credential is present and whose client
library is importable: exactly the condition under which
`_initialize_fallback_llm` succeeds. -/
def fallback_available (env : SelectorEnv) : Bool :=
  (env.anthropic_api_key.isSome && env.langchain_anthropic_installed)
    || (env.openai_api_key.isSome && env.langchain_openai_installed)

/-- A backend behaviour that does not depend on the invocation index: the
same prompt always produces the same outcome (a deterministic stub). -/
def DeterministicBackend (b : Backend) : Prop :=
  (∀ i j t d, b.classify i t d = b.classify j t d)
    ∧ (∀ i j t d, b.subtasks i t d = b.subtasks j t d)

/-! Concrete backends used as witnesses and counterexamples. -/

/-- A backend whose classification response carries a category outside the
enumerated set; the schema accepts it because `category` is a plain `str`. -/
def bananaBackend : Backend :=
  { classify := fun _ _ _ => .parsed ⟨"banana", "model chose a non-enumerated label", 3⟩
    subtasks := fun _ _ _ => .fail "unused" }

/-- A backend that raises on every chain invocation. -/
def failingBackend : Backend :=
  { classify := fun _ _ _ => .fail "connection refused"
    subtasks := fun _ _ _ => .fail "connection refused" }

/-- A backend returning the subtask sequence [A, B, C]. -/
def abcBackend : Backend :=
  { classify := fun _ _ _ => .fail "unused"
    subtasks := fun _ _ _ =>
      .parsed ⟨[⟨"A", "first"⟩, ⟨"B", "second"⟩, ⟨"C", "third"⟩], none⟩ }

/-- A backend returning a classification whose priority is out of range. -/
def outOfRangeBackend : Backend :=
  { classify := fun _ _ _ => .parsed ⟨"work", "looks important", 99⟩
    subtasks := fun _ _ _ => .fail "unused" }

/-- A deterministic stub backend answering every call identically. -/
def stubBackend : Backend :=
  { classify := fun _ _ _ => .parsed ⟨"work", "professional task", 4⟩
    subtasks := fun _ _ _ => .parsed ⟨[⟨"Book venue", "find a venue"⟩], none⟩ }

/-- A selector environment with the primary probe failed, both provider
credentials present and both client libraries importable. -/
def env0 : SelectorEnv :=
  ⟨"llama3.2:3b", "http://ollama:11434", some "down", some "akey", some "okey",
    true, true⟩

/-- A selector environment with the primary probe failed and only the
second-priority provider (OpenAI) credentialed. -/
def env1 : SelectorEnv :=
  ⟨"llama3.2:3b", "http://ollama:11434", some "down", none, some "okey",
    true, true⟩

/-- C1: for every backend behaviour and every title and description, the
classification component of the result of `analyze_task` has a priority in
[1, 5]: schema validation rejects out-of-range priorities on the success
path, and every failure path returns the safe default, whose priority is 3. -/
theorem analyze_priority_in_range (b : Backend) (k : Nat) (t d : String) :
    1 ≤ (analyze_task b k t d).classification.priority
      ∧ (analyze_task b k t d).classification.priority ≤ 5 := by
  dsimp only [analyze_task, classify_task]
  cases b.classify k t d with
  | fail e => exact ⟨by norm_num, by norm_num⟩
  | parsed raw =>
    by_cases h : 1 ≤ raw.priority ∧ raw.priority ≤ 5
    · simp [validate_classification, h]
    · simp [validate_classification, h]

/-- C2 counterexample: a backend whose parsed classification carries the
category string "banana" passes schema validation unchanged (the `category`
field is an unconstrained `str`), so the result of `analyze_task` has a
category outside {personal, work, urgent, other}, refuting the claim as
stated. -/
theorem analyze_category_outside_enum :
    (analyze_task bananaBackend 0 "t" "d").classification.category = "banana"
      ∧ "banana" ∉ (["personal", "work", "urgent", "other"] : List String) := by
  exact ⟨rfl, by decide⟩

/-- C2 amended: for every backend behaviour, the classification category of
the result of `analyze_task` is the failure default "other" or exactly the
category string carried by the backend's validated response; the schema does
not restrict that string to the enumerated set, it is only requested in the
prompt. -/
theorem analyze_category_default_or_backend (b : Backend) (k : Nat)
    (t d : String) :
    (analyze_task b k t d).classification.category = "other"
      ∨ ∃ raw, b.classify k t d = .parsed raw
          ∧ (analyze_task b k t d).classification.category = raw.category := by
  dsimp only [analyze_task, classify_task]
  cases hc : b.classify k t d with
  | fail e => exact Or.inl rfl
  | parsed raw =>
    by_cases h : 1 ≤ raw.priority ∧ raw.priority ≤ 5
    · exact Or.inr ⟨raw, rfl, by simp [validate_classification, h]⟩
    · exact Or.inl (by simp [validate_classification, h])

/-- C3: `analyze_task` is a total function of the backend behaviour (it never
raises), and when the backend fails the classification call the
classification is the safe default carrying the failure text; the subtask
step still runs regardless, and when the subtask call also fails the subtask
list is its own safe default. -/
theorem analyze_safe_default_on_failure (b : Backend) (k : Nat)
    (t d mc : String) (hc : b.classify k t d = .fail mc) :
    (analyze_task b k t d).classification
        = ⟨"other", "Classification unavailable: " ++ mc, 3⟩
      ∧ (analyze_task b k t d).subtasks = suggest_subtasks b (k + 1) t d
      ∧ ∀ ms, b.subtasks (k + 1) t d = .fail ms →
          (analyze_task b k t d).subtasks
            = ⟨[], "Subtask generation unavailable: " ++ ms⟩ := by
  refine ⟨?_, rfl, ?_⟩
  · simp [analyze_task, classify_task, hc]
  · intro ms hs
    simp [analyze_task, suggest_subtasks, hs]

/-- C3 witness: applying the theorem to a backend that raises on every call
yields both safe defaults. -/
theorem analyze_safe_default_on_failure_witness :
    (analyze_task failingBackend 0 "t" "d").classification
        = ⟨"other", "Classification unavailable: connection refused", 3⟩
      ∧ (analyze_task failingBackend 0 "t" "d").subtasks
        = ⟨[], "Subtask generation unavailable: connection refused"⟩ := by
  obtain ⟨h1, _, h3⟩ :=
    analyze_safe_default_on_failure failingBackend 0 "t" "d"
      "connection refused" rfl
  exact ⟨h1, h3 "connection refused" rfl⟩

/-- C4: for every backend behaviour, the event sequence of
`analyze_task_stream` is one start event, the two classification-step
events, the two subtasks-step events, and one final complete event, in that
order, and the complete event's data equals the result `analyze_task`
returns for the same inputs and the same backend. -/
theorem stream_event_order_and_complete_data (b : Backend) (k : Nat)
    (t d : String) :
    ((analyze_task_stream b k t d).map fun e => (e.type, e.step))
        = [(.start, "initialization"), (.progress, "classification"),
           (.progress, "classification"), (.progress, "subtasks"),
           (.progress, "subtasks"), (.complete, "done")]
      ∧ (analyze_task_stream b k t d).getLast?
        = some ⟨.complete, "done", some (.result (analyze_task b k t d))⟩ :=
  ⟨rfl, rfl⟩

/-- Helper: the fallback selector fails only when no provider has both a
credential and an importable client library. -/
theorem fallback_llm_error_no_provider (env : SelectorEnv) (msg : String)
    (h : _initialize_fallback_llm env = .error msg) :
    fallback_available env = false := by
  obtain ⟨m, u, oe, ak, okey, ai, oi⟩ := env
  cases ak <;> cases okey <;> cases ai <;> cases oi <;>
    simp_all [_initialize_fallback_llm, fallback_available]

/-- C5: when the Ollama construction-and-probe fails and fallback is
disabled, construction fails immediately with the BackendUnavailable error
(no fallback provider is consulted, whatever credentials exist); and
construction fails only when the primary probe failed and, when fallback is
enabled, no fallback provider is credentialed with an importable library. -/
theorem init_llm_failure_policy (env : SelectorEnv) (use_fallback : Bool) :
    (∀ e, env.ollama_error = some e →
        _initialize_llm env false
          = .error ("Ollama not available and fallback disabled: " ++ e))
      ∧ ∀ msg, _initialize_llm env use_fallback = .error msg →
          env.ollama_error ≠ none
            ∧ (use_fallback = true → fallback_available env = false) := by
  constructor
  · intro e he
    simp [_initialize_llm, he]
  · intro msg h
    cases he : env.ollama_error with
    | none => simp [_initialize_llm, he] at h
    | some e =>
      refine ⟨by simp [he], ?_⟩
      intro hu
      subst hu
      rw [_initialize_llm, he] at h
      simp only [if_true] at h
      exact fallback_llm_error_no_provider env msg h

/-- C5 witness: the theorem applied to an environment whose primary probe
failed while both fallback providers are credentialed and importable, with
fallback disabled: the selector fails immediately. -/
theorem init_llm_failure_policy_witness :
    _initialize_llm env0 false
        = .error "Ollama not available and fallback disabled: down"
      ∧ env0.ollama_error ≠ none := by
  obtain ⟨h1, h2⟩ := init_llm_failure_policy env0 false
  have he := h1 "down" rfl
  exact ⟨he, (h2 _ he).1⟩

/-- C6: with the primary failed and fallback enabled, providers are tried in
the fixed order Anthropic then OpenAI: a credentialed Anthropic with an
importable library wins; when Anthropic lacks a credential or its library,
a credentialed OpenAI with an importable library is selected instead. -/
theorem fallback_priority_order (env : SelectorEnv) (e key : String)
    (hollama : env.ollama_error = some e) :
    (env.anthropic_api_key = some key →
        env.langchain_anthropic_installed = true →
        _initialize_llm env true = .ok (.chatAnthropic key))
      ∧ ((env.anthropic_api_key = none
            ∨ env.langchain_anthropic_installed = false) →
          env.openai_api_key = some key →
          env.langchain_openai_installed = true →
          _initialize_llm env true = .ok (.chatOpenAI key)) := by
  constructor
  · intro ha hi
    simp [_initialize_llm, hollama, _initialize_fallback_llm, ha, hi]
  · rintro (ha | hi) ho hoi
    · simp [_initialize_llm, hollama, _initialize_fallback_llm, ha, ho, hoi]
    · cases ha : env.anthropic_api_key <;>
        simp [_initialize_llm, hollama, _initialize_fallback_llm, ha, hi, ho,
          hoi]

/-- C6 witness: the theorem applied to an environment where only the
second-priority provider (OpenAI) is credentialed: OpenAI is selected. -/
theorem fallback_priority_order_witness :
    _initialize_llm env1 true = .ok (.chatOpenAI "okey") :=
  (fallback_priority_order env1 "down" "okey" rfl).2 (Or.inl rfl) rfl rfl

/-- C7: subtask order is preserved end to end: whenever the backend response
parses to a subtask sequence, `suggest_subtasks` returns exactly that
sequence, in the same order, never re-sorted. -/
theorem subtask_order_preserved (b : Backend) (k : Nat) (t d : String)
    (raw : RawSubtaskList) (h : b.subtasks k t d = .parsed raw) :
    (suggest_subtasks b k t d).subtasks = raw.subtasks := by
  simp [suggest_subtasks, h, validate_subtask_list]

/-- C7 witness: a stub backend returning the subtask sequence [A, B, C]
yields exactly [A, B, C]. -/
theorem subtask_order_preserved_witness :
    (suggest_subtasks abcBackend 0 "t" "d").subtasks
      = [⟨"A", "first"⟩, ⟨"B", "second"⟩, ⟨"C", "third"⟩] :=
  subtask_order_preserved abcBackend 0 "t" "d" _ rfl

/-- C8: a parsed classification whose priority lies outside [1, 5] is a
validation failure: `classify_task` returns the full safe default — category
"other", priority 3 (never the out-of-range value clamped into range), and
reasoning carrying the failure text — keeping no field of the out-of-range
response. -/
theorem out_of_range_priority_is_validation_failure (b : Backend) (k : Nat)
    (t d : String) (raw : RawClassification)
    (h : b.classify k t d = .parsed raw)
    (hp : raw.priority < 1 ∨ 5 < raw.priority) :
    classify_task b k t d
      = ⟨"other",
         "Classification unavailable: " ++ validation_error_text raw, 3⟩ := by
  have hnot : ¬(1 ≤ raw.priority ∧ raw.priority ≤ 5) := by
    rcases hp with h1 | h1 <;> omega
  simp [classify_task, h, validate_classification, hnot]

/-- C8 witness: the theorem applied to a backend answering with priority 99:
the result is the safe default, with priority 3, not 5. -/
theorem out_of_range_priority_witness :
    classify_task outOfRangeBackend 0 "t" "d"
      = ⟨"other",
         "Classification unavailable: "
           ++ validation_error_text ⟨"work", "looks important", 99⟩, 3⟩ :=
  out_of_range_priority_is_validation_failure outOfRangeBackend 0 "t" "d" _
    rfl (Or.inr (by norm_num))

/-- C9: `analyze_task` is deterministic in its backend: against a
deterministic backend, two runs with identical title and description yield
identical results, wherever each run's chain invocations fall in the agent's
call sequence. -/
theorem analyze_deterministic (b : Backend) (h : DeterministicBackend b)
    (m n : Nat) (t d : String) :
    analyze_task b m t d = analyze_task b n t d := by
  unfold analyze_task classify_task suggest_subtasks
  rw [h.1 m n t d, h.2 (m + 1) (n + 1) t d]

/-- C9 witness: the theorem applied to a deterministic stub backend, for a
first run (chain calls 0 and 1) and a second run (chain calls 2 and 3). -/
theorem analyze_deterministic_witness :
    DeterministicBackend stubBackend
      ∧ analyze_task stubBackend 0 "Plan company retreat"
          "Organize a 3-day team retreat"
        = analyze_task stubBackend 2 "Plan company retreat"
            "Organize a 3-day team retreat" :=
  have hdet : DeterministicBackend stubBackend :=
    ⟨fun _ _ _ _ => rfl, fun _ _ _ _ => rfl⟩
  ⟨hdet, analyze_deterministic stubBackend hdet 0 2 _ _⟩

/-- C10: the error branches of the stream are dead code: for every backend
behaviour `analyze_task_stream` emits no error event and yields exactly six
events — one start, two classification-step progress events, two
subtasks-step progress events, and one complete. -/
theorem stream_no_error_six_events (b : Backend) (k : Nat) (t d : String) :
    (analyze_task_stream b k t d).length = 6
      ∧ ((analyze_task_stream b k t d).map fun e => e.type)
        = [.start, .progress, .progress, .progress, .progress, .complete]
      ∧ ∀ ev ∈ analyze_task_stream b k t d, ev.type ≠ .error := by
  refine ⟨rfl, rfl, ?_⟩
  intro ev hev
  simp only [analyze_task_stream, List.mem_cons, List.not_mem_nil,
    or_false] at hev
  rcases hev with h | h | h | h | h | h <;> subst h <;> simp

/-- C10 witness: the theorem applied to a backend that raises on every call:
six events, and the membership clause discharged at the start event. -/
theorem stream_no_error_six_events_witness :
    (analyze_task_stream failingBackend 0 "t" "d").length = 6
      ∧ (AnalysisEvent.mk .start "initialization" none).type ≠ .error := by
  obtain ⟨h1, _, h3⟩ := stream_no_error_six_events failingBackend 0 "t" "d"
  have hmem : AnalysisEvent.mk .start "initialization" none
      ∈ analyze_task_stream failingBackend 0 "t" "d" := by
    simp [analyze_task_stream]
  exact ⟨h1, h3 _ hmem⟩
